import Mathlib

set_option maxRecDepth 40000

/-!
# Verification of the schema-to-SQL engine of the Schema Designer repository

This file embeds, in Lean 4, the parts of the repository that the frozen
claims are about:

* the browser-side `SchemaDesigner` class (file `src/unnamed/part_000`):
  its `generateSQL` and `deleteTable` methods and the frontend data model;
* the Zustand store action `removeTable` (file `src/src/stores/schemaStore.js`);
* the table-creation REST handler of `src/routes/schemas.js` together with
  the SQLite uniqueness constraint `UNIQUE(schema_id, name)` declared in
  `src/database/init.js` (SQLite TEXT comparison is case-sensitive, binary
  collation, so the duplicate check `WHERE name = ?` is byte-exact);
* the backend `SQLGenerator` (module `src/utils/sqlGenerator.js`), which is
  **not present** in the source tree — only its caller
  (`router.get('/:schemaId/sql')`) is.  It is therefore modelled from the
  specification, as are the SchemaValidator checks of spec §4.3.

Definitions mirror the JavaScript source; theorems at the end settle the
claims.
-/

namespace SchemaDesigner

/-- A column of the frontend data model (`src/unnamed/part_000`): plain JS
objects with `name`, `type` and the flags `primaryKey`, `required`,
`unique` (the `unique` flag occurs in the sample e-commerce schema and in
the README data-structure documentation). -/
structure FColumn where
  name : String
  type : String
  primaryKey : Bool
  required : Bool
  uniq : Bool
deriving DecidableEq, Repr

/-- A table of the frontend data model: `id`, `name`, ordered `columns`
(the canvas position is irrelevant to SQL generation and omitted). -/
structure FTable where
  id : String
  name : String
  columns : List FColumn
deriving DecidableEq, Repr

/-- A relationship of the frontend data model:
`{sourceTable, sourceColumn, targetTable, targetColumn}`. -/
structure FRel where
  id : String
  sourceTable : String
  sourceColumn : String
  targetTable : String
  targetColumn : String
deriving DecidableEq, Repr

/-- The frontend schema object: `tables` and `relationships`. -/
structure FSchema where
  tables : List FTable
  relationships : List FRel
deriving DecidableEq, Repr

/-- JavaScript `Array.prototype.join(sep)`. -/
def joinSep (sep : String) : List String → String
  | [] => ""
  | [x] => x
  | x :: y :: xs => x ++ sep ++ joinSep sep (y :: xs)

/-- Concatenation of a list of strings (the `sql += …` accumulation of
`generateSQL`). -/
def concatAll : List String → String
  | [] => ""
  | x :: xs => x ++ concatAll xs

/-- One element of `columnDefinitions` in `SchemaDesigner.generateSQL`
(`src/unnamed/part_000` lines 548–553):
`let def = \x7b2 spaces\x7dname type`, then `+= ' PRIMARY KEY'` if
`column.primaryKey`, then `+= ' NOT NULL'` if
`column.required && !column.primaryKey`. -/
def columnDef (c : FColumn) : String :=
  let d := "  " ++ c.name ++ " " ++ c.type
  let d := if c.primaryKey then d ++ " PRIMARY KEY" else d
  if c.required && !c.primaryKey then d ++ " NOT NULL" else d

/-- The text `generateSQL` appends for one table (lines 545–557):
`CREATE TABLE name (\n` ++ columnDefinitions.join(',\n') ++ `\n);\n\n`. -/
def createTableStmt (t : FTable) : String :=
  "CREATE TABLE " ++ t.name ++ " (\n"
    ++ joinSep ",\n" (t.columns.map columnDef)
    ++ "\n);\n\n"

/-- The constraint name `generateSQL` interpolates after `ADD CONSTRAINT`
(line 561): `fk_<targetTable>_<sourceTable>`. -/
def conName (r : FRel) : String :=
  "fk_" ++ r.targetTable ++ "_" ++ r.sourceTable

/-- The text `generateSQL` appends for one relationship (lines 560–563). -/
def alterStmt (r : FRel) : String :=
  "ALTER TABLE " ++ r.targetTable ++ " ADD CONSTRAINT fk_" ++ r.targetTable
    ++ "_" ++ r.sourceTable ++ " "
    ++ "FOREIGN KEY (" ++ r.targetColumn ++ ") REFERENCES " ++ r.sourceTable
    ++ "(" ++ r.sourceColumn ++ ");\n\n"

/-- The CREATE TABLE phase of `generateSQL`: the first `forEach` loop. -/
def createPhase (s : FSchema) : String :=
  concatAll (s.tables.map createTableStmt)

/-- The constraint phase of `generateSQL`: the second `forEach` loop. -/
def constraintPhase (s : FSchema) : String :=
  concatAll (s.relationships.map alterStmt)

/-- `SchemaDesigner.generateSQL` (`src/unnamed/part_000` lines 542–566):
starts from the empty string, appends one `CREATE TABLE` statement per
table, then one `ALTER TABLE … ADD CONSTRAINT` statement per
relationship. -/
def generateSQL (s : FSchema) : String :=
  createPhase s ++ constraintPhase s

/-- The foreign-key dependency edge induced by the emitted constraints:
table `a` (which holds the foreign key) depends on table `b` when some
relationship has target `a` and source `b`. -/
def dependsOn (s : FSchema) (a b : String) : Prop :=
  ∃ r ∈ s.relationships, r.targetTable = a ∧ r.sourceTable = b

instance (s : FSchema) (a b : String) : Decidable (dependsOn s a b) := by
  unfold dependsOn; infer_instance

/-- `SchemaDesigner.deleteTable` (`src/unnamed/part_000` lines 340–351):
removes the table with the given id and filters out every relationship
whose `sourceTable` or `targetTable` is that id. -/
def deleteTable (s : FSchema) (tableId : String) : FSchema :=
  { tables := s.tables.filter (fun t => t.id ≠ tableId)
    relationships := s.relationships.filter
      (fun r => r.sourceTable ≠ tableId ∧ r.targetTable ≠ tableId) }

/-- Every relationship of the schema references existing tables on both
ends (the quantity claim C10 says deletion preserves). -/
def refsExist (s : FSchema) : Prop :=
  ∀ r ∈ s.relationships,
    (∃ t ∈ s.tables, t.id = r.sourceTable) ∧ (∃ t ∈ s.tables, t.id = r.targetTable)

instance (s : FSchema) : Decidable (refsExist s) := by
  unfold refsExist; infer_instance

/-- The character `F` does not occur in the string.  `generateSQL` writes
the letter `F` in no literal of its CREATE phase (`CREATE TABLE `,
` PRIMARY KEY`, ` NOT NULL`, parentheses, separators), so a schema whose
table names, column names and column types avoid `F` yields CREATE TABLE
statements without `F` — in particular without any `FOREIGN KEY`
clause. -/
def fkMarkFree (str : String) : Prop := 'F' ∉ str.data

instance (str : String) : Decidable (fkMarkFree str) := by
  unfold fkMarkFree; infer_instance

/-- The table name and all of its column names and types avoid the
character `F`. -/
def tableFkMarkFree (t : FTable) : Prop :=
  fkMarkFree t.name ∧ ∀ c ∈ t.columns, fkMarkFree c.name ∧ fkMarkFree c.type

instance (t : FTable) : Decidable (tableFkMarkFree t) := by
  unfold tableFkMarkFree; infer_instance

/-- Concrete frontend schema of claim C3 / spec scenario 1: one table
`users` with an INTEGER primary-key column `id` and a required+unique
`VARCHAR(255)` column `email`. -/
def usersEx : FSchema :=
  { tables := [⟨"users", "users",
      [⟨"id", "INTEGER", true, true, false⟩,
       ⟨"email", "VARCHAR(255)", false, true, true⟩]⟩]
    relationships := [] }

/-- Concrete cyclic frontend schema (spec scenario 3): tables `a` and `b`
with relationships in both directions. -/
def cycEx : FSchema :=
  { tables := [⟨"a", "a", [⟨"id", "INTEGER", true, true, false⟩,
                           ⟨"b_id", "INTEGER", false, false, false⟩]⟩,
               ⟨"b", "b", [⟨"id", "INTEGER", true, true, false⟩,
                           ⟨"a_id", "INTEGER", false, false, false⟩]⟩]
    relationships := [⟨"r1", "a", "id", "b", "a_id"⟩,
                      ⟨"r2", "b", "id", "a", "b_id"⟩] }

/-- Concrete frontend schema with two relationships joining the same
(target, source) table pair — the input on which claim C5's
disambiguation assertion is tested. -/
def dupRelEx : FSchema :=
  { tables := [⟨"a", "a", [⟨"id", "INTEGER", true, true, false⟩]⟩,
               ⟨"b", "b", [⟨"x", "INTEGER", false, false, false⟩,
                           ⟨"y", "INTEGER", false, false, false⟩]⟩]
    relationships := [⟨"r1", "a", "id", "b", "x"⟩,
                      ⟨"r2", "a", "id", "b", "y"⟩] }

end SchemaDesigner

namespace SchemaStore

/-- A relationship as held by the Zustand store
(`src/src/stores/schemaStore.js`): references tables by
`sourceTableId` / `targetTableId`. -/
structure SRel where
  id : String
  sourceTableId : String
  targetTableId : String
deriving DecidableEq, Repr

/-- A table as held by the store (only the id matters here). -/
structure STable where
  id : String
deriving DecidableEq, Repr

/-- The current schema held by the store. -/
structure StoreSchema where
  tables : List STable
  relationships : List SRel
deriving DecidableEq, Repr

/-- The store action `removeTable` (`src/src/stores/schemaStore.js`
lines 88–101): filters the tables by id and drops every relationship
whose `sourceTableId` or `targetTableId` is the removed id. -/
def removeTable (s : StoreSchema) (tableId : String) : StoreSchema :=
  { tables := s.tables.filter (fun t => t.id ≠ tableId)
    relationships := s.relationships.filter
      (fun r => r.sourceTableId ≠ tableId ∧ r.targetTableId ≠ tableId) }

/-- Both ends of every relationship point at an existing table. -/
def refsExist (s : StoreSchema) : Prop :=
  ∀ r ∈ s.relationships,
    (∃ t ∈ s.tables, t.id = r.sourceTableId) ∧ (∃ t ∈ s.tables, t.id = r.targetTableId)

instance (s : StoreSchema) : Decidable (refsExist s) := by
  unfold refsExist; infer_instance

end SchemaStore

namespace SQLGenerator

/-!
The backend compilation engine lives in `src/utils/sqlGenerator.js`, which
is required by `src/routes/schemas.js` (`new SQLGenerator(dialect)` /
`sqlGenerator.generateSchema(tables, relationships, options)`) but whose
file is absent from the source tree.  Everything in this namespace is
therefore **modelled from the spec** (§3–§7), with the input shapes taken
from the caller in `src/routes/schemas.js` and the known data kinds taken
from the Joi `column` schema in `src/unnamed/part_001`.
-/

/-- Modelled from the spec: the known dialect identifiers
`{mysql, postgresql, sqlite, mssql}` (spec §3 DialectProfile, §6 options;
also the Joi `sqlExport.dialect` set of `src/unnamed/part_001`). -/
inductive Dialect
  | mysql
  | postgresql
  | sqlite
  | mssql
deriving DecidableEq, Repr

/-- Modelled from the spec: lookup of a dialect identifier; any identifier
outside the known set has no `DialectProfile` (spec §7
UnsupportedDialectError). -/
def parseDialect (d : String) : Option Dialect :=
  if d = "mysql" then some .mysql
  else if d = "postgresql" then some .postgresql
  else if d = "sqlite" then some .sqlite
  else if d = "mssql" then some .mssql
  else none

/-- A column as the route handler of `src/routes/schemas.js` hands it to
the generator (lines 672–699): name, data type, optional
length/precision/scale, the five boolean flags, optional default value. -/
structure BColumn where
  name : String
  dataType : String
  length : Option Nat
  precisionVal : Option Nat
  scaleVal : Option Nat
  isPrimaryKey : Bool
  isForeignKey : Bool
  isUnique : Bool
  isRequired : Bool
  isAutoIncrement : Bool
  defaultValue : Option String
deriving DecidableEq, Repr

/-- A table as handed to the generator: name, optional description,
columns already ordered by their stored order-index. -/
structure BTable where
  name : String
  description : Option String
  columns : List BColumn
deriving DecidableEq, Repr

/-- A relationship as handed to the generator (`src/routes/schemas.js`
lines 701–709): side names resolved from ids, plus the ON DELETE and
ON UPDATE actions. -/
structure BRel where
  sourceTableName : String
  sourceColumnName : String
  targetTableName : String
  targetColumnName : String
  onDelete : String
  onUpdate : String
deriving DecidableEq, Repr

/-- The options record of spec §6 (the route always passes
`includeIndexes: true` and `includeConstraints: true`). -/
structure GenOptions where
  includeDropStatements : Bool := false
  includeComments : Bool := true
  includeIndexes : Bool := true
  includeConstraints : Bool := true
deriving DecidableEq, Repr

/-- JavaScript `Array.prototype.join(sep)`, shared with the frontend
embedding. -/
def joinSep (sep : String) : List String → String
  | [] => ""
  | [x] => x
  | x :: y :: xs => x ++ sep ++ joinSep sep (y :: xs)

/-- Modelled from the spec: concrete type syntax, substituting supplied
length or precision/scale (spec §4.2a). -/
def resolveType (c : BColumn) : String :=
  match c.length with
  | some n => c.dataType ++ "(" ++ toString n ++ ")"
  | none =>
    match c.precisionVal, c.scaleVal with
    | some p, some s => c.dataType ++ "(" ++ toString p ++ "," ++ toString s ++ ")"
    | _, _ => c.dataType

/-- Modelled from the spec: per-dialect auto-increment syntax
(spec §4.2d). -/
def autoIncSyntax : Dialect → String
  | .mysql => "AUTO_INCREMENT"
  | .postgresql => "GENERATED ALWAYS AS IDENTITY"
  | .sqlite => "AUTOINCREMENT"
  | .mssql => "IDENTITY(1,1)"

/-- Modelled from the spec: one rendered column of a CREATE TABLE
statement, `name type [PRIMARY KEY] [NOT NULL] [UNIQUE] [DEFAULT literal]
[auto-increment syntax]` (spec §4.5 phase 1). -/
def renderColumn (d : Dialect) (c : BColumn) : String :=
  "  " ++ c.name ++ " " ++ resolveType c
    ++ (if c.isPrimaryKey then " PRIMARY KEY" else "")
    ++ (if c.isRequired && !c.isPrimaryKey then " NOT NULL" else "")
    ++ (if c.isUnique then " UNIQUE" else "")
    ++ (match c.defaultValue with
        | some v => " DEFAULT " ++ v
        | none => "")
    ++ (if c.isAutoIncrement then " " ++ autoIncSyntax d else "")

/-- Modelled from the spec: one CREATE TABLE statement per table, columns
in their stored order, no foreign-key clause (spec §4.5 phase 1). -/
def createStmt (d : Dialect) (t : BTable) : String :=
  "CREATE TABLE " ++ t.name ++ " (\n"
    ++ joinSep ",\n" (t.columns.map (renderColumn d))
    ++ "\n);"

/-- Modelled from the spec: the CREATE TABLE statement preceded by the
table's description as a leading comment line when `includeComments` is
set (spec §4.5 formatting). -/
def tableText (d : Dialect) (opts : GenOptions) (t : BTable) : String :=
  (if opts.includeComments then
     match t.description with
     | some desc => "-- " ++ desc ++ "\n"
     | none => ""
   else "")
    ++ createStmt d t

/-- Modelled from the spec: the deterministic constraint name
`fk_<targetTable>_<sourceTable>`, disambiguated with a numeric suffix when
earlier relationships already used the same (target, source) pair
(spec §4.5 phase 2).  `seen` holds the pairs of the preceding
relationships. -/
def fkName (seen : List (String × String)) (r : BRel) : String :=
  let p := (r.targetTableName, r.sourceTableName)
  let k := seen.countP (fun q => q = p)
  if k = 0 then "fk_" ++ r.targetTableName ++ "_" ++ r.sourceTableName
  else "fk_" ++ r.targetTableName ++ "_" ++ r.sourceTableName ++ "_" ++ toString (k + 1)

/-- Modelled from the spec: one ALTER TABLE … ADD CONSTRAINT statement for
a relationship, carrying the ON DELETE / ON UPDATE actions (spec §4.5
phase 2, concrete shape from spec scenario 2). -/
def fkStmt (nm : String) (r : BRel) : String :=
  "ALTER TABLE " ++ r.targetTableName ++ " ADD CONSTRAINT " ++ nm
    ++ " FOREIGN KEY (" ++ r.targetColumnName ++ ") REFERENCES "
    ++ r.sourceTableName ++ " (" ++ r.sourceColumnName ++ ")"
    ++ " ON DELETE " ++ r.onDelete ++ " ON UPDATE " ++ r.onUpdate ++ ";"

/-- Modelled from the spec: the CONSTRAINT-phase statements, one per
relationship in order, with disambiguated names. -/
def fkStatements (seen : List (String × String)) : List BRel → List String
  | [] => []
  | r :: rs =>
    fkStmt (fkName seen r) r
      :: fkStatements ((r.targetTableName, r.sourceTableName) :: seen) rs

/-- Modelled from the spec: DROP-phase step (a) — drop every constraint
created in phase 2, using the same disambiguated names (spec §4.5 DROP
phase). -/
def dropConstraintStmts (seen : List (String × String)) : List BRel → List String
  | [] => []
  | r :: rs =>
    ("ALTER TABLE " ++ r.targetTableName ++ " DROP CONSTRAINT " ++ fkName seen r ++ ";")
      :: dropConstraintStmts ((r.targetTableName, r.sourceTableName) :: seen) rs

/-- The table names a table's foreign keys reference (an edge of the
dependency graph runs from the foreign-key holder — the relationship's
target table — to the referenced source table). -/
def referencedNames (rels : List BRel) (t : BTable) : List String :=
  (rels.filter (fun r => r.targetTableName = t.name)).map (·.sourceTableName)

/-- Modelled from the spec: a topological-order pass over the dependency
graph (spec §4.4); tables all of whose referenced tables are already
placed come first, and when no table is free (a cycle) the remaining
tables keep their stored order. -/
def topo (fuel : Nat) (remaining : List BTable) (rels : List BRel) : List BTable :=
  match fuel with
  | 0 => remaining
  | fuel + 1 =>
    let free := remaining.filter (fun t =>
      (referencedNames rels t).all
        (fun n => n == t.name || !(remaining.any (fun u => u.name == n))))
    let rest := remaining.filter (fun t =>
      !((referencedNames rels t).all
        (fun n => n == t.name || !(remaining.any (fun u => u.name == n)))))
    if free.isEmpty then remaining
    else free ++ topo fuel rest rels

/-- Modelled from the spec: DROP-phase step (b) — drop every table, in
reverse of a topological order when the dependency graph is acyclic, in
the stable stored order when cyclic (spec §4.5 DROP phase). -/
def dropTableStmts (tables : List BTable) (rels : List BRel) : List String :=
  ((topo tables.length tables rels).reverse).map
    (fun t => "DROP TABLE " ++ t.name ++ ";")

/-- The table with the given name, if any. -/
def lookupTable (tables : List BTable) (n : String) : Option BTable :=
  tables.find? (fun t => t.name == n)

/-- The named column of the named table, if both exist. -/
def lookupColumn (tables : List BTable) (tn cn : String) : Option BColumn :=
  (lookupTable tables tn).bind (fun t => t.columns.find? (fun c => c.name == cn))

/-- First occurrences of a list of pairs, in order. -/
def dedupPairs : List (String × String) → List (String × String)
  | [] => []
  | p :: ps => p :: (dedupPairs ps).filter (fun q => q ≠ p)

/-- Modelled from the spec: INDEX-phase statements — one CREATE INDEX per
column that is the referencing (target) side of some relationship and is
not already covered by a PRIMARY KEY or UNIQUE constraint (spec §4.5
phase 3). -/
def indexStmts (tables : List BTable) (rels : List BRel) : List String :=
  (dedupPairs ((rels.filter (fun r =>
      match lookupColumn tables r.targetTableName r.targetColumnName with
      | some c => !c.isPrimaryKey && !c.isUnique
      | none => false)).map
    (fun r => (r.targetTableName, r.targetColumnName)))).map
    (fun p => "CREATE INDEX idx_" ++ p.1 ++ "_" ++ p.2
      ++ " ON " ++ p.1 ++ " (" ++ p.2 ++ ");")

/-- Modelled from the spec: the kinds of structural validation issue
(spec §4.3, §7 ValidationError). -/
inductive VIssue
  | duplicateTableName (name : String)
  | duplicateColumnName (tableName colName : String)
  | danglingReference (relIndex : Nat)
  | incompatibleTypes (relIndex : Nat)
  | unknownDataKind (tableName colName : String)
  | invalidAutoIncrement (tableName colName : String)
deriving DecidableEq, Repr

/-- The data kinds accepted by the system — the `dataType` value set of
the Joi `column` schema in `src/unnamed/part_001` lines 48–54. -/
def knownKinds : List String :=
  ["INTEGER", "BIGINT", "SMALLINT", "TINYINT",
   "VARCHAR", "CHAR", "TEXT", "LONGTEXT",
   "DECIMAL", "NUMERIC", "FLOAT", "DOUBLE", "REAL",
   "DATE", "TIME", "DATETIME", "TIMESTAMP",
   "BOOLEAN", "BIT", "JSON", "JSONB", "BLOB", "UUID"]

/-- The integer kinds, with which alone `autoIncrement` may be combined
(spec §4.2d). -/
def integerKinds : List String :=
  ["INTEGER", "BIGINT", "SMALLINT", "TINYINT"]

/-- ASCII lower-casing of one character (the case folding relevant to SQL
identifiers). -/
def lowerChar (c : Char) : Char :=
  if 'A' ≤ c ∧ c ≤ 'Z' then Char.ofNat (c.toNat + 32) else c

/-- ASCII lower-casing of a string. -/
def lowerStr (s : String) : String := ⟨s.data.map lowerChar⟩

/-- Table index `i` collides case-insensitively with an earlier table. -/
def dupTableAt (tables : List BTable) (p : Nat × BTable) : Bool :=
  (tables.take p.1).any (fun u => lowerStr u.name == lowerStr p.2.name)

/-- Modelled from the spec: one DuplicateTableName issue per table whose
(case-insensitive) name already occurred earlier (spec §3 invariant,
§4.3). -/
def dupTableIssues (tables : List BTable) : List VIssue :=
  (tables.enum.filter (dupTableAt tables)).map
    (fun p => .duplicateTableName p.2.name)

/-- Column index `i` of a table collides case-insensitively with an
earlier column of the same table. -/
def dupColumnAt (t : BTable) (p : Nat × BColumn) : Bool :=
  (t.columns.take p.1).any (fun u => lowerStr u.name == lowerStr p.2.name)

/-- Modelled from the spec: one DuplicateColumnName issue per colliding
column, across all tables (spec §3 invariant, §4.3). -/
def dupColumnIssues (tables : List BTable) : List VIssue :=
  tables.flatMap (fun t =>
    (t.columns.enum.filter (dupColumnAt t)).map
      (fun p => .duplicateColumnName t.name p.2.name))

/-- Both (table, column) ends of the relationship exist. -/
def relResolves (tables : List BTable) (r : BRel) : Bool :=
  (lookupColumn tables r.sourceTableName r.sourceColumnName).isSome
    && (lookupColumn tables r.targetTableName r.targetColumnName).isSome

/-- Modelled from the spec: one DanglingReference issue per relationship
with a non-existent (table, column) end (spec §3 invariant, §4.3). -/
def danglingIssues (tables : List BTable) (rels : List BRel) : List VIssue :=
  (rels.enum.filter (fun p => !relResolves tables p.2)).map
    (fun p => .danglingReference p.1)

/-- The two ends resolve but their abstract kinds differ (length and
precision are ignored, spec §3). -/
def relKindsClash (tables : List BTable) (r : BRel) : Bool :=
  match lookupColumn tables r.sourceTableName r.sourceColumnName,
        lookupColumn tables r.targetTableName r.targetColumnName with
  | some a, some b => a.dataType != b.dataType
  | _, _ => false

/-- Modelled from the spec: one IncompatibleTypes issue per relationship
whose resolved ends have different abstract kinds (spec §3 invariant,
§4.3). -/
def incompatIssues (tables : List BTable) (rels : List BRel) : List VIssue :=
  (rels.enum.filter (fun p => relKindsClash tables p.2)).map
    (fun p => .incompatibleTypes p.1)

/-- The column's data kind is outside the known set. -/
def unknownKind (c : BColumn) : Bool :=
  !(knownKinds.contains c.dataType)

/-- Modelled from the spec: one UnknownDataKind issue per column whose
kind is outside the catalog (spec §4.1, §4.3). -/
def unknownKindIssues (tables : List BTable) : List VIssue :=
  tables.flatMap (fun t =>
    (t.columns.filter unknownKind).map (fun c => .unknownDataKind t.name c.name))

/-- `autoIncrement` on a non-integer kind. -/
def badAutoInc (c : BColumn) : Bool :=
  c.isAutoIncrement && !(integerKinds.contains c.dataType)

/-- Modelled from the spec: one InvalidAutoIncrement issue per column that
combines `autoIncrement` with a non-integer kind (spec §4.2d, §4.3). -/
def autoIncIssues (tables : List BTable) : List VIssue :=
  tables.flatMap (fun t =>
    (t.columns.filter badAutoInc).map (fun c => .invalidAutoIncrement t.name c.name))

/-- Modelled from the spec: `validate(schema) -> list of ValidationIssue`;
collects every issue of every kind in one pass, never stopping at the
first (spec §4.3). -/
def validate (tables : List BTable) (rels : List BRel) : List VIssue :=
  dupTableIssues tables ++ dupColumnIssues tables
    ++ danglingIssues tables rels ++ incompatIssues tables rels
    ++ unknownKindIssues tables ++ autoIncIssues tables

/-- The number of structural defects of the schema, counted kind by kind
directly on the schema (independently of the issue-list construction). -/
def defectCount (tables : List BTable) (rels : List BRel) : Nat :=
  tables.enum.countP (dupTableAt tables)
    + (tables.map (fun t => t.columns.enum.countP (dupColumnAt t))).sum
    + rels.countP (fun r => !relResolves tables r)
    + rels.countP (relKindsClash tables)
    + (tables.map (fun t => t.columns.countP unknownKind)).sum
    + (tables.map (fun t => t.columns.countP badAutoInc)).sum

/-- Modelled from the spec: the error results of one compilation call
(spec §7): an unknown dialect identifier, or a non-empty validation issue
list. -/
inductive GenError
  | unsupportedDialect (d : String)
  | validationFailed (issues : List VIssue)
deriving DecidableEq, Repr

/-- Modelled from the spec: the ordered statement list of one successful
compilation — DROP phase (constraint drops then table drops) when
requested, then CREATE TABLE phase, then CONSTRAINT phase, then INDEX
phase (spec §4.5). -/
def statements (d : Dialect) (tables : List BTable) (rels : List BRel)
    (opts : GenOptions) : List String :=
  (if opts.includeDropStatements then
     (if opts.includeConstraints then dropConstraintStmts [] rels else [])
       ++ dropTableStmts tables rels
   else [])
    ++ tables.map (tableText d opts)
    ++ (if opts.includeConstraints then fkStatements [] rels else [])
    ++ (if opts.includeIndexes then indexStmts tables rels else [])

/-- Modelled from the spec: the compiler façade
`compile(schema snapshot, options, dialect)` (spec §5, §6): rejects an
unknown dialect before any work, refuses to emit anything when validation
returns issues, and otherwise joins the ordered statements with blank
lines (spec §4.5 formatting). -/
def compile (dialect : String) (tables : List BTable) (rels : List BRel)
    (opts : GenOptions) : Except GenError String :=
  match parseDialect dialect with
  | none => .error (.unsupportedDialect dialect)
  | some d =>
    match validate tables rels with
    | [] => .ok (joinSep "\n\n" (statements d tables rels opts))
    | issue :: issues => .error (.validationFailed (issue :: issues))

end SQLGenerator

namespace TablesRoute

/-!
The table-creation handler `router.post('/:schemaId/tables')` of
`src/routes/schemas.js` (lines 413–512) guards against duplicates with
`SELECT id FROM tables WHERE schema_id = ? AND name = ?` and the schema of
`src/database/init.js` enforces `UNIQUE(schema_id, name)`.  SQLite's
default BINARY collation makes both comparisons byte-exact
(case-sensitive).  The state of one schema is abstracted to its list of
table rows.
-/

/-- A row of the `tables` table, restricted to one schema: id and name. -/
structure TableRow where
  id : String
  name : String
deriving DecidableEq, Repr

/-- The duplicate check and insert of the table-creation handler
(`src/routes/schemas.js` lines 419–447): reject with
`DUPLICATE_RESOURCE` when a row with byte-identical name exists, insert
otherwise. -/
def createTable (tables : List TableRow) (id nm : String) :
    Except String (List TableRow) :=
  if tables.any (fun t => t.name = nm) then .error "DUPLICATE_RESOURCE"
  else .ok (tables ++ [⟨id, nm⟩])

/-- The operations that change the set of tables of one schema: the
creation handler and the deletion handler (`DELETE FROM tables WHERE
id = ?`). -/
inductive TableOp
  | create (id nm : String)
  | del (id : String)
deriving DecidableEq, Repr

/-- Effect of one operation on the schema's table rows; a rejected
creation leaves the state unchanged (the handler returns 409). -/
def applyOp (tables : List TableRow) : TableOp → List TableRow
  | .create id nm =>
    match createTable tables id nm with
    | .ok ts => ts
    | .error _ => tables
  | .del id => tables.filter (fun t => t.id ≠ id)

/-- The table rows reached from an empty schema by a sequence of
creation/deletion requests. -/
def runOps (ops : List TableOp) : List TableRow :=
  ops.foldl applyOp []

end TablesRoute

namespace SQLGenerator

/-- Spec scenario 2: the `users` table handed to the generator. -/
def usersB : BTable :=
  ⟨"users", none,
   [⟨"id", "INTEGER", none, none, none, true, false, false, true, false, none⟩]⟩

/-- Spec scenario 2: the `orders` table handed to the generator. -/
def ordersB : BTable :=
  ⟨"orders", none,
   [⟨"id", "INTEGER", none, none, none, true, false, false, true, false, none⟩,
    ⟨"user_id", "INTEGER", none, none, none, false, false, false, true, false, none⟩]⟩

/-- Spec scenario 2: the `users`→`orders` relationship with
onDelete = onUpdate = CASCADE. -/
def scen2Rel : BRel :=
  ⟨"users", "id", "orders", "user_id", "CASCADE", "CASCADE"⟩

/-- Spec scenarios 3/4: two tables `a` and `b` that reference each other
(a relationship cycle). -/
def scen4Tables : List BTable :=
  [⟨"a", none,
    [⟨"id", "INTEGER", none, none, none, true, false, false, true, false, none⟩,
     ⟨"b_id", "INTEGER", none, none, none, false, false, false, false, false, none⟩]⟩,
   ⟨"b", none,
    [⟨"id", "INTEGER", none, none, none, true, false, false, true, false, none⟩,
     ⟨"a_id", "INTEGER", none, none, none, false, false, false, false, false, none⟩]⟩]

/-- Spec scenarios 3/4: the two relationships closing the cycle. -/
def scen4Rels : List BRel :=
  [⟨"b", "id", "a", "b_id", "CASCADE", "CASCADE"⟩,
   ⟨"a", "id", "b", "a_id", "CASCADE", "CASCADE"⟩]

/-- Spec scenario 6: two tables whose names collide case-insensitively. -/
def scen6Tables : List BTable :=
  [⟨"Customer", none,
    [⟨"id", "INTEGER", none, none, none, true, false, false, true, false, none⟩]⟩,
   ⟨"customer", none,
    [⟨"id", "INTEGER", none, none, none, true, false, false, true, false, none⟩]⟩]

/-- Spec scenario 6: a relationship pointing at a non-existent column. -/
def scen6Rels : List BRel :=
  [⟨"Customer", "id", "customer", "no_such_column", "RESTRICT", "CASCADE"⟩]

instance : DecidableEq (Except GenError String) := fun
  | .error a, .error b =>
    if h : a = b then .isTrue (by rw [h]) else .isFalse (by simp [h])
  | .ok a, .ok b =>
    if h : a = b then .isTrue (by rw [h]) else .isFalse (by simp [h])
  | .error _, .ok _ => .isFalse (by simp)
  | .ok _, .error _ => .isFalse (by simp)

end SQLGenerator

namespace SchemaStore

/-- A small store schema: two tables and one relationship between them. -/
def storeEx : StoreSchema :=
  ⟨[⟨"x"⟩, ⟨"y"⟩], [⟨"r", "x", "y"⟩]⟩

end SchemaStore

/-! ## Theorems -/

namespace SchemaDesigner

/-- Appending strings cannot introduce a character absent from both
parts. -/
theorem not_mem_data_append {ch : Char} {a b : String}
    (ha : ch ∉ a.data) (hb : ch ∉ b.data) : ch ∉ (a ++ b).data := by
  rw [String.data_append]
  exact fun h => (List.mem_append.mp h).elim ha hb

/-- Normal form of `columnDef`: base text plus the two optional flags. -/
theorem columnDef_eq (c : FColumn) :
    columnDef c = "  " ++ c.name ++ " " ++ c.type
      ++ (if c.primaryKey then " PRIMARY KEY" else "")
      ++ (if c.required && !c.primaryKey then " NOT NULL" else "") := by
  cases hp : c.primaryKey <;> cases hr : c.required <;> simp [columnDef, hp, hr]

/-- A rendered column definition contains no `F` when the column's name
and type contain none (the literals of `columnDef` have no `F`). -/
theorem charF_not_mem_columnDef {c : FColumn}
    (hn : 'F' ∉ c.name.data) (ht : 'F' ∉ c.type.data) :
    'F' ∉ (columnDef c).data := by
  rw [columnDef_eq]
  have h2 : ∀ b : Bool, 'F' ∉ (if b then (" PRIMARY KEY" : String) else "").data := by decide
  have h3 : ∀ b : Bool, 'F' ∉ (if b then (" NOT NULL" : String) else "").data := by decide
  exact not_mem_data_append
    (not_mem_data_append
      (not_mem_data_append
        (not_mem_data_append (not_mem_data_append (by decide) hn) (by decide)) ht)
      (h2 c.primaryKey))
    (h3 (c.required && !c.primaryKey))

/-- Joining with `,\n` contains no `F` when no element does. -/
theorem charF_not_mem_joinSep :
    ∀ l : List String, (∀ x ∈ l, 'F' ∉ x.data) → 'F' ∉ (joinSep ",\n" l).data
  | [], _ => by decide
  | [x], h => by
    simpa [joinSep] using h x (by simp)
  | x :: y :: xs, h => by
    simp only [joinSep]
    exact not_mem_data_append (not_mem_data_append (h x (by simp)) (by decide))
      (charF_not_mem_joinSep (y :: xs) (fun z hz => h z (by simp [hz])))

/-- A CREATE TABLE statement of `generateSQL` contains no `F` when the
table's identifiers contain none. -/
theorem charF_not_mem_createTableStmt {t : FTable} (h : tableFkMarkFree t) :
    'F' ∉ (createTableStmt t).data := by
  obtain ⟨hn, hc⟩ := h
  unfold createTableStmt
  refine not_mem_data_append (not_mem_data_append
    (not_mem_data_append (not_mem_data_append (by decide) hn) (by decide)) ?_) (by decide)
  refine charF_not_mem_joinSep _ ?_
  intro x hx
  obtain ⟨c, hc', rfl⟩ := List.mem_map.mp hx
  exact charF_not_mem_columnDef (hc c hc').1 (hc c hc').2

/-- No CREATE TABLE statement of `generateSQL` contains the text
`FOREIGN KEY` (its letter `F` never appears). -/
theorem no_fk_clause_in_create {t : FTable} (h : tableFkMarkFree t) :
    ¬ ("FOREIGN KEY".data <:+: (createTableStmt t).data) := fun hinf =>
  charF_not_mem_createTableStmt h (hinf.subset (by decide))

/-- Every CREATE TABLE statement starts with the text `CREATE TABLE `. -/
theorem createTableStmt_starts (t : FTable) :
    "CREATE TABLE ".data <+: (createTableStmt t).data := by
  unfold createTableStmt
  simp only [String.data_append, List.append_assoc]
  exact List.prefix_append _ _

/-- Every constraint statement starts with the text `ALTER TABLE `. -/
theorem alterStmt_starts (r : FRel) :
    "ALTER TABLE ".data <+: (alterStmt r).data := by
  unfold alterStmt
  simp only [String.data_append, List.append_assoc]
  exact List.prefix_append _ _

/-- **C1.** For every schema — schemas whose relationships form a cycle
included — `generateSQL` first emits all CREATE TABLE statements and only
then the ALTER TABLE … ADD CONSTRAINT statements; every CREATE-phase
statement begins with `CREATE TABLE `, every constraint-phase statement
with `ALTER TABLE `, and (for identifier sets avoiding the letter `F`) no
CREATE TABLE statement contains a `FOREIGN KEY` clause.  The function is
total, so generation succeeds without any cycle error. -/
theorem C1_two_phase_emission (s : FSchema)
    (hF : ∀ t ∈ s.tables, tableFkMarkFree t) :
    generateSQL s = concatAll (s.tables.map createTableStmt)
        ++ concatAll (s.relationships.map alterStmt)
      ∧ (∀ t ∈ s.tables, "CREATE TABLE ".data <+: (createTableStmt t).data)
      ∧ (∀ r ∈ s.relationships, "ALTER TABLE ".data <+: (alterStmt r).data)
      ∧ (∀ t ∈ s.tables, ¬ ("FOREIGN KEY".data <:+: (createTableStmt t).data)) :=
  ⟨rfl, fun t _ => createTableStmt_starts t, fun r _ => alterStmt_starts r,
   fun t ht => no_fk_clause_in_create (hF t ht)⟩

/-- **C1, witness.**  The cyclic schema `cycEx` (tables `a`, `b`
referencing each other) satisfies the identifier hypothesis, really has a
dependency cycle, and C1 applies to it. -/
theorem C1_two_phase_emission_witness :
    (∀ t ∈ cycEx.tables, tableFkMarkFree t)
  ∧ dependsOn cycEx "b" "a" ∧ dependsOn cycEx "a" "b"
  ∧ (generateSQL cycEx = concatAll (cycEx.tables.map createTableStmt)
        ++ concatAll (cycEx.relationships.map alterStmt)
      ∧ (∀ t ∈ cycEx.tables, "CREATE TABLE ".data <+: (createTableStmt t).data)
      ∧ (∀ r ∈ cycEx.relationships, "ALTER TABLE ".data <+: (alterStmt r).data)
      ∧ (∀ t ∈ cycEx.tables, ¬ ("FOREIGN KEY".data <:+: (createTableStmt t).data))) :=
  ⟨by decide, by decide, by decide, C1_two_phase_emission cycEx (by decide)⟩

end SchemaDesigner

/-- An infix of a list stays an infix after prepending on the left. -/
theorem infix_append_left {α : Type} {l₁ l₂ : List α} (l₃ : List α)
    (h : l₁ <:+: l₂) : l₁ <:+: l₃ ++ l₂ := by
  obtain ⟨s, t, rfl⟩ := h
  exact ⟨l₃ ++ s, t, by simp⟩

namespace SchemaDesigner

/-- A member of a string list is an infix of the list's concatenation. -/
theorem concatAll_contains_of_mem {x : String} :
    ∀ {l : List String}, x ∈ l → x.data <:+: (concatAll l).data
  | a :: l, h => by
    rcases List.mem_cons.mp h with rfl | h'
    · simp only [concatAll, String.data_append]
      exact (List.prefix_append _ _).isInfix
    · simp only [concatAll, String.data_append]
      exact infix_append_left _ (concatAll_contains_of_mem h')

/-- **C2.** `generateSQL` (and the modelled backend `compile`) are pure:
two runs on equal schema snapshots — and, for the backend, equal dialect,
tables, relationships and options — produce byte-identical output. -/
theorem C2_deterministic
    (s₁ s₂ : FSchema) (hs : s₁ = s₂)
    (d₁ d₂ : String) (ts₁ ts₂ : List SQLGenerator.BTable)
    (rs₁ rs₂ : List SQLGenerator.BRel) (o₁ o₂ : SQLGenerator.GenOptions)
    (hd : d₁ = d₂) (ht : ts₁ = ts₂) (hr : rs₁ = rs₂) (ho : o₁ = o₂) :
    generateSQL s₁ = generateSQL s₂
      ∧ SQLGenerator.compile d₁ ts₁ rs₁ o₁ = SQLGenerator.compile d₂ ts₂ rs₂ o₂ := by
  subst hs hd ht hr ho
  exact ⟨rfl, rfl⟩

/-- **C2, witness.**  Two runs on the scenario-2 inputs coincide. -/
theorem C2_deterministic_witness :
    generateSQL usersEx = generateSQL usersEx
      ∧ SQLGenerator.compile "postgresql" [SQLGenerator.usersB, SQLGenerator.ordersB]
          [SQLGenerator.scen2Rel] {}
        = SQLGenerator.compile "postgresql" [SQLGenerator.usersB, SQLGenerator.ordersB]
          [SQLGenerator.scen2Rel] {} :=
  C2_deterministic usersEx usersEx rfl "postgresql" "postgresql"
    [SQLGenerator.usersB, SQLGenerator.ordersB] [SQLGenerator.usersB, SQLGenerator.ordersB]
    [SQLGenerator.scen2Rel] [SQLGenerator.scen2Rel] {} {} rfl rfl rfl rfl

/-- **C3, counterexample.**  In `usersEx` the column `email` is flagged
required *and* unique, yet the generated SQL does not contain
`email VARCHAR(255) NOT NULL UNIQUE`: `generateSQL` never renders the
`unique` flag, so the claim's required output is absent. -/
theorem C3_counterexample :
    (∃ t ∈ usersEx.tables, ∃ c ∈ t.columns,
        c.name = "email" ∧ c.type = "VARCHAR(255)" ∧ c.required = true ∧ c.uniq = true)
  ∧ ¬ ("email VARCHAR(255) NOT NULL UNIQUE".data <:+: (generateSQL usersEx).data) :=
  ⟨by decide, by decide⟩

/-- **C3, amended.**  Each column is rendered as name, type, then
`PRIMARY KEY` when flagged primary and `NOT NULL` when required and not
primary; the unique, default and auto-increment flags are not rendered.
For the `users` example the full output is the single CREATE TABLE
statement below — it contains `email VARCHAR(255) NOT NULL` and no ALTER
or DROP statement. -/
theorem C3_column_rendering :
    (∀ c : FColumn, columnDef c = "  " ++ c.name ++ " " ++ c.type
      ++ (if c.primaryKey then " PRIMARY KEY" else "")
      ++ (if c.required && !c.primaryKey then " NOT NULL" else ""))
  ∧ generateSQL usersEx
      = "CREATE TABLE users (\n  id INTEGER PRIMARY KEY,\n  email VARCHAR(255) NOT NULL\n);\n\n"
  ∧ ("  email VARCHAR(255) NOT NULL".data <:+: (generateSQL usersEx).data)
  ∧ ¬ ("ALTER".data <:+: (generateSQL usersEx).data)
  ∧ ¬ ("DROP".data <:+: (generateSQL usersEx).data) :=
  ⟨columnDef_eq, rfl, by decide, by decide, by decide⟩

/-- Decomposition of `alterStmt` around the constraint name. -/
theorem alterStmt_decomp (r : FRel) :
    alterStmt r = "ALTER TABLE " ++ r.targetTable ++ " ADD CONSTRAINT "
      ++ conName r ++ " FOREIGN KEY (" ++ r.targetColumn ++ ") REFERENCES "
      ++ r.sourceTable ++ "(" ++ r.sourceColumn ++ ");\n\n" := by
  apply String.ext
  unfold alterStmt conName
  simp [String.data_append, List.append_assoc]

/-- **C5, counterexample.**  Two relationships of `dupRelEx` join the same
(target, source) pair; `generateSQL` names both constraints `fk_b_a` with
no numeric suffix, so the constraint names of one output are not
unique. -/
theorem C5_counterexample :
    dupRelEx.relationships.map conName = ["fk_b_a", "fk_b_a"]
  ∧ ¬ (dupRelEx.relationships.map conName).Nodup
  ∧ generateSQL dupRelEx
      = "CREATE TABLE a (\n  id INTEGER PRIMARY KEY\n);\n\n"
        ++ "CREATE TABLE b (\n  x INTEGER,\n  y INTEGER\n);\n\n"
        ++ "ALTER TABLE b ADD CONSTRAINT fk_b_a FOREIGN KEY (x) REFERENCES a(id);\n\n"
        ++ "ALTER TABLE b ADD CONSTRAINT fk_b_a FOREIGN KEY (y) REFERENCES a(id);\n\n" :=
  ⟨rfl, by decide, rfl⟩

/-- **C5, amended.**  Every emitted foreign-key constraint is named
`fk_<targetTable>_<sourceTable>`; no numeric suffix is ever appended, so
two relationships joining the same table pair yield identical constraint
names.  Each relationship's full statement appears inside
`generateSQL`'s output. -/
theorem C5_constraint_naming (s : FSchema) (r : FRel) (h : r ∈ s.relationships) :
    conName r = "fk_" ++ r.targetTable ++ "_" ++ r.sourceTable
  ∧ alterStmt r = "ALTER TABLE " ++ r.targetTable ++ " ADD CONSTRAINT " ++ conName r
      ++ " FOREIGN KEY (" ++ r.targetColumn ++ ") REFERENCES " ++ r.sourceTable
      ++ "(" ++ r.sourceColumn ++ ");\n\n"
  ∧ (alterStmt r).data <:+: (generateSQL s).data := by
  refine ⟨rfl, alterStmt_decomp r, ?_⟩
  have h1 : (alterStmt r).data <:+: (constraintPhase s).data :=
    concatAll_contains_of_mem (List.mem_map_of_mem _ h)
  unfold generateSQL
  rw [String.data_append]
  exact infix_append_left _ h1

/-- **C5, amended, witness.**  The first relationship of `dupRelEx`. -/
theorem C5_constraint_naming_witness :
    (alterStmt (⟨"r1", "a", "id", "b", "x"⟩ : FRel)).data <:+: (generateSQL dupRelEx).data :=
  (C5_constraint_naming dupRelEx ⟨"r1", "a", "id", "b", "x"⟩ (by decide)).2.2

end SchemaDesigner

namespace SQLGenerator

/-- Every constraint statement ends with its relationship's ON DELETE and
ON UPDATE actions, position by position. -/
theorem fkStatements_actions :
    ∀ (seen : List (String × String)) (rs : List BRel),
      List.Forall₂ (fun stmt (r : BRel) => ∃ pre,
        stmt = pre ++ " ON DELETE " ++ r.onDelete ++ " ON UPDATE " ++ r.onUpdate ++ ";")
        (fkStatements seen rs) rs
  | _, [] => List.Forall₂.nil
  | seen, r :: rs => by
    simp only [fkStatements]
    exact List.Forall₂.cons ⟨_, rfl⟩ (fkStatements_actions _ rs)

/-- **C4.** Every emitted ALTER TABLE … ADD CONSTRAINT statement carries
its relationship's ON DELETE and ON UPDATE actions, and for the
scenario-2 schema (users→orders, CASCADE/CASCADE, postgresql, default
options) the compiled output contains the exact statement
`ALTER TABLE orders ADD CONSTRAINT fk_orders_users FOREIGN KEY (user_id)
REFERENCES users (id) ON DELETE CASCADE ON UPDATE CASCADE;`. -/
theorem C4_constraint_actions :
    (∀ (seen : List (String × String)) (rs : List BRel),
      List.Forall₂ (fun stmt (r : BRel) => ∃ pre,
        stmt = pre ++ " ON DELETE " ++ r.onDelete ++ " ON UPDATE " ++ r.onUpdate ++ ";")
        (fkStatements seen rs) rs)
  ∧ fkStatements [] [scen2Rel]
      = ["ALTER TABLE orders ADD CONSTRAINT fk_orders_users FOREIGN KEY (user_id) REFERENCES users (id) ON DELETE CASCADE ON UPDATE CASCADE;"]
  ∧ compile "postgresql" [usersB, ordersB] [scen2Rel] {}
      = .ok ("CREATE TABLE users (\n  id INTEGER PRIMARY KEY\n);\n\nCREATE TABLE orders (\n  id INTEGER PRIMARY KEY,\n  user_id INTEGER NOT NULL\n);\n\n"
        ++ "ALTER TABLE orders ADD CONSTRAINT fk_orders_users FOREIGN KEY (user_id) REFERENCES users (id) ON DELETE CASCADE ON UPDATE CASCADE;"
        ++ "\n\nCREATE INDEX idx_orders_user_id ON orders (user_id);") :=
  ⟨fkStatements_actions, rfl, by decide⟩

/-- Every constraint-drop statement is an
`ALTER TABLE … DROP CONSTRAINT …;` for its relationship's target table. -/
theorem dropConstraintStmts_shape :
    ∀ (seen : List (String × String)) (rs : List BRel),
      List.Forall₂ (fun stmt (r : BRel) => ∃ nm,
        stmt = "ALTER TABLE " ++ r.targetTableName ++ " DROP CONSTRAINT " ++ nm ++ ";")
        (dropConstraintStmts seen rs) rs
  | _, [] => List.Forall₂.nil
  | seen, r :: rs => by
    simp only [dropConstraintStmts]
    exact List.Forall₂.cons ⟨_, rfl⟩ (dropConstraintStmts_shape _ rs)

/-- **C6.** With `includeDropStatements` set, the compiled output is the
DROP phase — all constraint drops, then all table drops — followed by the
CREATE, CONSTRAINT and INDEX phases; every constraint-drop statement has
the form `ALTER TABLE … DROP CONSTRAINT …;` and every table-drop
statement the form `DROP TABLE …;`. -/
theorem C6_drop_phase (dialect : String) (d : Dialect) (tables : List BTable)
    (rels : List BRel) (opts : GenOptions)
    (hd : parseDialect dialect = some d)
    (hv : validate tables rels = [])
    (hdrop : opts.includeDropStatements = true)
    (hcons : opts.includeConstraints = true) :
    compile dialect tables rels opts
      = .ok (joinSep "\n\n"
          ((dropConstraintStmts [] rels ++ dropTableStmts tables rels)
            ++ (tables.map (tableText d opts)
              ++ (fkStatements [] rels
                ++ (if opts.includeIndexes then indexStmts tables rels else [])))))
  ∧ (∀ (seen : List (String × String)) (rs : List BRel),
      List.Forall₂ (fun stmt (r : BRel) => ∃ nm,
        stmt = "ALTER TABLE " ++ r.targetTableName ++ " DROP CONSTRAINT " ++ nm ++ ";")
        (dropConstraintStmts seen rs) rs)
  ∧ (∀ stmt ∈ dropTableStmts tables rels, ∃ n, stmt = "DROP TABLE " ++ n ++ ";") := by
  refine ⟨?_, dropConstraintStmts_shape, ?_⟩
  · simp only [compile, hd, hv, statements, hdrop, hcons, if_true, List.append_assoc]
  · intro stmt hstmt
    obtain ⟨t, _, rfl⟩ := List.mem_map.mp hstmt
    exact ⟨t.name, rfl⟩

/-- **C6, witness.**  The cyclic two-table schema of spec scenario 4 with
`includeDropStatements = true` under the mysql dialect. -/
theorem C6_drop_phase_witness :
    compile "mysql" scen4Tables scen4Rels { includeDropStatements := true }
      = .ok (joinSep "\n\n"
          ((dropConstraintStmts [] scen4Rels ++ dropTableStmts scen4Tables scen4Rels)
            ++ (scen4Tables.map (tableText .mysql { includeDropStatements := true })
              ++ (fkStatements [] scen4Rels
                ++ (if ({ includeDropStatements := true } : GenOptions).includeIndexes
                    then indexStmts scen4Tables scen4Rels else []))))) :=
  (C6_drop_phase "mysql" .mysql scen4Tables scen4Rels { includeDropStatements := true }
    rfl (by decide) rfl rfl).1

/-- Counting over an enumeration by a predicate on the elements equals
counting over the plain list. -/
theorem countP_enumFrom_snd {α : Type} (q : α → Bool) :
    ∀ (n : Nat) (l : List α),
      (List.enumFrom n l).countP (fun p => q p.2) = l.countP q
  | _, [] => rfl
  | n, a :: l => by
    simp [List.enumFrom, List.countP_cons, countP_enumFrom_snd q (n + 1) l]

/-- **C7.** The validator does not stop at the first defect: the length of
the issue list equals the sum, over all six defect kinds, of the number of
defects present in the schema; on the scenario-6 schema (case-insensitive
duplicate table names plus a dangling relationship) it returns exactly the
two issues. -/
theorem C7_validator_exhaustive :
    (∀ (tables : List BTable) (rels : List BRel),
        (validate tables rels).length = defectCount tables rels)
  ∧ validate scen6Tables scen6Rels
      = [.duplicateTableName "customer", .danglingReference 0]
  ∧ defectCount scen6Tables scen6Rels = 2 := by
  refine ⟨?_, by decide, by decide⟩
  intro tables rels
  have hd : rels.enum.countP (fun p => !relResolves tables p.2)
      = rels.countP (fun r => !relResolves tables r) := by
    simpa [List.enum] using countP_enumFrom_snd (fun r => !relResolves tables r) 0 rels
  have hi : rels.enum.countP (fun p => relKindsClash tables p.2)
      = rels.countP (fun r => relKindsClash tables r) := by
    simpa [List.enum] using countP_enumFrom_snd (fun r => relKindsClash tables r) 0 rels
  simp only [validate, defectCount, dupTableIssues, dupColumnIssues, danglingIssues,
    incompatIssues, unknownKindIssues, autoIncIssues, List.length_append,
    List.length_flatMap, List.length_map, Function.comp_def,
    ← List.countP_eq_length_filter, hd, hi]

/-- An identifier outside the known set has no dialect profile. -/
theorem parseDialect_eq_none {d : String}
    (h : d ∉ ["mysql", "postgresql", "sqlite", "mssql"]) :
    parseDialect d = none := by
  simp only [List.mem_cons, List.not_mem_nil, or_false, not_or] at h
  obtain ⟨h1, h2, h3, h4⟩ := h
  simp [parseDialect, h1, h2, h3, h4]

/-- **C8.** For every dialect identifier outside
`{mysql, postgresql, sqlite, mssql}` the compiler fails with an
UnsupportedDialect error and never returns SQL text. -/
theorem C8_unsupported_dialect (dialect : String) (tables : List BTable)
    (rels : List BRel) (opts : GenOptions)
    (h : dialect ∉ ["mysql", "postgresql", "sqlite", "mssql"]) :
    compile dialect tables rels opts = .error (.unsupportedDialect dialect)
  ∧ ∀ sql, compile dialect tables rels opts ≠ .ok sql := by
  have hp := parseDialect_eq_none h
  have he : compile dialect tables rels opts = .error (.unsupportedDialect dialect) := by
    simp [compile, hp]
  refine ⟨he, fun sql hc => ?_⟩
  rw [he] at hc
  exact Except.noConfusion hc

/-- **C8, witness.**  The dialect `oracle` of spec scenario 5. -/
theorem C8_unsupported_dialect_witness :
    compile "oracle" [usersB] [] {} = .error (.unsupportedDialect "oracle") :=
  (C8_unsupported_dialect "oracle" [usersB] [] {} (by decide)).1

end SQLGenerator

namespace TablesRoute

/-- When a byte-identical table name exists, the handler rejects with
`DUPLICATE_RESOURCE`. -/
theorem createTable_error_of_mem {tables : List TableRow} {id nm : String}
    (h : ∃ t ∈ tables, t.name = nm) :
    createTable tables id nm = .error "DUPLICATE_RESOURCE" := by
  obtain ⟨t, ht, he⟩ := h
  have ha : tables.any (fun t => decide (t.name = nm)) = true :=
    List.any_eq_true.mpr ⟨t, ht, by simp [he]⟩
  simp [createTable, ha]

/-- When no byte-identical table name exists, the handler inserts. -/
theorem createTable_ok_of_not_mem {tables : List TableRow} {id nm : String}
    (h : ¬ ∃ t ∈ tables, t.name = nm) :
    createTable tables id nm = .ok (tables ++ [⟨id, nm⟩]) := by
  have ha : tables.any (fun t => decide (t.name = nm)) = false := by
    rw [List.any_eq_false]
    intro t ht
    simp only [decide_eq_true_eq]
    exact fun he => h ⟨t, ht, he⟩
  simp [createTable, ha]

/-- One request preserves exact (byte-level) uniqueness of the names. -/
theorem nodup_names_applyOp {tables : List TableRow}
    (h : (tables.map (fun t => t.name)).Nodup) (op : TableOp) :
    ((applyOp tables op).map (fun t => t.name)).Nodup := by
  cases op with
  | create id nm =>
    by_cases hc : ∃ t ∈ tables, t.name = nm
    · simpa [applyOp, createTable_error_of_mem hc] using h
    · simp only [applyOp, createTable_ok_of_not_mem hc]
      rw [List.map_append]
      refine h.append (List.nodup_singleton nm) ?_
      intro a ha
      obtain ⟨t, ht, rfl⟩ := List.mem_map.mp ha
      simp only [List.map_cons, List.map_nil, List.mem_singleton]
      exact fun he => hc ⟨t, ht, he⟩
  | del id =>
    simp only [applyOp]
    exact ((List.filter_sublist _).map _).nodup h

/-- The uniqueness invariant holds along any request sequence. -/
theorem nodup_names_foldl :
    ∀ (ops : List TableOp) (tables : List TableRow),
      (tables.map (fun t => t.name)).Nodup →
      ((ops.foldl applyOp tables).map (fun t => t.name)).Nodup
  | [], _, h => h
  | op :: ops, tables, h => by
    simp only [List.foldl_cons]
    exact nodup_names_foldl ops _ (nodup_names_applyOp h op)

/-- **C9, counterexample.**  Creating `customer` when `Customer` exists is
*not* rejected: the duplicate check compares names byte-exactly, so the
reachable state holds two tables whose names differ only in letter
case. -/
theorem C9_counterexample :
    runOps [.create "t1" "Customer", .create "t2" "customer"]
      = [⟨"t1", "Customer"⟩, ⟨"t2", "customer"⟩]
  ∧ createTable [⟨"t1", "Customer"⟩] "t2" "customer"
      = .ok [⟨"t1", "Customer"⟩, ⟨"t2", "customer"⟩]
  ∧ SQLGenerator.lowerStr "Customer" = SQLGenerator.lowerStr "customer"
  ∧ ("Customer" : String) ≠ "customer" :=
  ⟨rfl, rfl, by decide, by decide⟩

/-- **C9, amended.**  Table names are unique case-sensitively within a
schema: creating a table whose name is byte-identical to an existing one
is rejected with `DUPLICATE_RESOURCE`, and every state reachable from the
empty schema by create/delete requests has pairwise-distinct table
names. -/
theorem C9_case_sensitive_uniqueness :
    (∀ (tables : List TableRow) (id nm : String),
       (∃ t ∈ tables, t.name = nm) →
       createTable tables id nm = .error "DUPLICATE_RESOURCE")
  ∧ (∀ ops : List TableOp, ((runOps ops).map (fun t => t.name)).Nodup) :=
  ⟨fun _ _ _ h => createTable_error_of_mem h,
   fun ops => nodup_names_foldl ops [] (by simp)⟩

/-- **C9, amended, witness.**  An exact duplicate is rejected; the state
after the two case-variant creations still has pairwise-distinct
names. -/
theorem C9_case_sensitive_uniqueness_witness :
    createTable [⟨"t1", "users"⟩] "t2" "users" = .error "DUPLICATE_RESOURCE"
  ∧ ((runOps [.create "t1" "Customer", .create "t2" "customer"]).map
      (fun t => t.name)).Nodup :=
  ⟨C9_case_sensitive_uniqueness.1 [⟨"t1", "users"⟩] "t2" "users"
      ⟨⟨"t1", "users"⟩, by simp, rfl⟩,
   C9_case_sensitive_uniqueness.2 [.create "t1" "Customer", .create "t2" "customer"]⟩

end TablesRoute

/-- **C10.** Deleting a table removes every relationship whose source or
target is the deleted table — in the frontend `deleteTable` and in the
store's `removeTable` alike — and therefore preserves the invariant that
every relationship references existing tables. -/
theorem C10_delete_table_cleans_relationships
    (s : SchemaDesigner.FSchema) (st : SchemaStore.StoreSchema) (tid tid' : String)
    (hs : SchemaDesigner.refsExist s) (hst : SchemaStore.refsExist st) :
    (∀ r ∈ (SchemaDesigner.deleteTable s tid).relationships,
        r.sourceTable ≠ tid ∧ r.targetTable ≠ tid)
  ∧ SchemaDesigner.refsExist (SchemaDesigner.deleteTable s tid)
  ∧ (∀ r ∈ (SchemaStore.removeTable st tid').relationships,
        r.sourceTableId ≠ tid' ∧ r.targetTableId ≠ tid')
  ∧ SchemaStore.refsExist (SchemaStore.removeTable st tid') := by
  refine ⟨?_, ?_, ?_, ?_⟩
  · intro r hr
    simpa using (List.mem_filter.mp hr).2
  · intro r hr
    have h2 := List.mem_filter.mp hr
    have hr0 : r ∈ s.relationships := h2.1
    have hcond : r.sourceTable ≠ tid ∧ r.targetTable ≠ tid := by simpa using h2.2
    obtain ⟨⟨t1, ht1, hid1⟩, t2, ht2, hid2⟩ := hs r hr0
    exact ⟨⟨t1, List.mem_filter.mpr ⟨ht1, by simp [hid1, hcond.1]⟩, hid1⟩,
           ⟨t2, List.mem_filter.mpr ⟨ht2, by simp [hid2, hcond.2]⟩, hid2⟩⟩
  · intro r hr
    simpa using (List.mem_filter.mp hr).2
  · intro r hr
    have h2 := List.mem_filter.mp hr
    have hr0 : r ∈ st.relationships := h2.1
    have hcond : r.sourceTableId ≠ tid' ∧ r.targetTableId ≠ tid' := by simpa using h2.2
    obtain ⟨⟨t1, ht1, hid1⟩, t2, ht2, hid2⟩ := hst r hr0
    exact ⟨⟨t1, List.mem_filter.mpr ⟨ht1, by simp [hid1, hcond.1]⟩, hid1⟩,
           ⟨t2, List.mem_filter.mpr ⟨ht2, by simp [hid2, hcond.2]⟩, hid2⟩⟩

/-- **C10, witness.**  Deleting table `a` of the cyclic schema and table
`x` of the store example leaves only relationships whose ends exist. -/
theorem C10_delete_table_cleans_relationships_witness :
    SchemaDesigner.refsExist (SchemaDesigner.deleteTable SchemaDesigner.cycEx "a")
  ∧ SchemaStore.refsExist (SchemaStore.removeTable SchemaStore.storeEx "x") := by
  have h := C10_delete_table_cleans_relationships SchemaDesigner.cycEx
    SchemaStore.storeEx "a" "x" (by decide) (by decide)
  exact ⟨h.2.1, h.2.2.2⟩
